import Mathlib

/-!
Verification of the ai-gateway's credential vault, bearer-token
authentication gate, chat validation, cost table and transcription
orchestration, shallowly embedded from the Rust source.

Modelling conventions
- Rust byte (`u8`) values are `Nat` below 256; a Rust `String`/`&str` on the
  authentication path is its byte sequence, a `List Nat` (the helper
  `strBytes` turns a Lean string literal into that byte list).
- `f32`/`f64` fields that the claims treat arithmetically (prices, costs,
  validation ranges) are embedded as `ℚ`; every numeric literal involved is
  written with its decimal value.
- The `aes_gcm`, `base64`, `sha2` and `rand` crates are external
  collaborators: base64 is embedded concretely (the STANDARD engine with
  canonical padding), the AEAD cipher is any structure satisfying the
  authenticated-encryption contract (`AeadScheme`), the random nonce and
  SHA-256 digest are explicit parameters.
- `async` code is embedded as pure state passing; each awaited repository
  operation of the authentication path is recorded in order in an
  `awaitedOps` trace, and work handed to `tokio::spawn` is recorded in a
  separate `spawnedOps`/`spawnedWrites` list that the caller never waits on.
-/

/-- Byte list of an ASCII string literal, the embedding of a Rust `&str`
on the byte-level paths. -/
def strBytes (s : String) : List Nat :=
  s.data.map Char.toNat

/-! ### base64 (STANDARD engine, canonical padding)
`BASE64` in `src/shared/utils/encryption.rs` is
`base64::engine::general_purpose::STANDARD`: the `A-Za-z0-9+/` alphabet,
`=` padding required and canonical, trailing bits rejected. -/

/-- Code of the base64 alphabet character for a sextet (0..63). -/
def b64charOfSextet (s : Nat) : Nat :=
  if s < 26 then 65 + s
  else if s < 52 then 97 + (s - 26)
  else if s < 62 then 48 + (s - 52)
  else if s = 62 then 43
  else 47

/-- Sextet of a base64 alphabet character code; `none` for a character
outside the alphabet (the pad `=` included). -/
def b64sextetOfChar (c : Nat) : Option Nat :=
  if 65 ≤ c ∧ c ≤ 90 then some (c - 65)
  else if 97 ≤ c ∧ c ≤ 122 then some (26 + (c - 97))
  else if 48 ≤ c ∧ c ≤ 57 then some (52 + (c - 48))
  else if c = 43 then some 62
  else if c = 47 then some 63
  else none

/-- base64-encode a byte list (codes of the output characters). -/
def b64encode : List Nat → List Nat
  | [] => []
  | [b1] =>
      [b64charOfSextet (b1 / 4), b64charOfSextet (b1 % 4 * 16), 61, 61]
  | [b1, b2] =>
      [b64charOfSextet (b1 / 4), b64charOfSextet (b1 % 4 * 16 + b2 / 16),
       b64charOfSextet (b2 % 16 * 4), 61]
  | b1 :: b2 :: b3 :: rest =>
      b64charOfSextet (b1 / 4) :: b64charOfSextet (b1 % 4 * 16 + b2 / 16) ::
      b64charOfSextet (b2 % 16 * 4 + b3 / 64) :: b64charOfSextet (b3 % 64) ::
      b64encode rest

/-- base64-decode a character-code list. Strict, as the STANDARD engine:
length must be a multiple of four, characters must be in the alphabet,
`=` may only close the final group, and the bits left over before the
padding must be zero (canonical encoding). -/
def b64decode : List Nat → Option (List Nat)
  | [] => some []
  | c1 :: c2 :: c3 :: c4 :: rest =>
      match b64sextetOfChar c1, b64sextetOfChar c2 with
      | some s1, some s2 =>
          if c3 = 61 then
            if c4 = 61 ∧ rest = [] ∧ s2 % 16 = 0 then
              some [s1 * 4 + s2 / 16]
            else none
          else
            match b64sextetOfChar c3 with
            | some s3 =>
                if c4 = 61 then
                  if rest = [] ∧ s3 % 4 = 0 then
                    some [s1 * 4 + s2 / 16, s2 % 16 * 16 + s3 / 4]
                  else none
                else
                  match b64sextetOfChar c4 with
                  | some s4 =>
                      (b64decode rest).map
                        (fun bs => (s1 * 4 + s2 / 16) :: (s2 % 16 * 16 + s3 / 4) ::
                                   (s3 % 4 * 64 + s4) :: bs)
                  | none => none
            | none => none
      | _, _ => none
  | _ => none

/-! ### UTF-8 validation
`String::from_utf8` at the end of `EncryptionService::decrypt` accepts
exactly the well-formed UTF-8 byte sequences; this is the standard
validation automaton (continuation bytes `80..BF`, no overlong forms, no
surrogates, no code point above `10FFFF`). -/

/-- Whether a byte is a UTF-8 continuation byte. -/
def utf8Cont (b : Nat) : Bool :=
  decide (128 ≤ b ∧ b ≤ 191)

/-- Whether a byte list is well-formed UTF-8. -/
def isValidUtf8 : List Nat → Bool
  | [] => true
  | b :: rest =>
      if b < 128 then isValidUtf8 rest
      else if 194 ≤ b ∧ b ≤ 223 then
        match rest with
        | b2 :: r => utf8Cont b2 && isValidUtf8 r
        | [] => false
      else if 224 ≤ b ∧ b ≤ 239 then
        match rest with
        | b2 :: b3 :: r =>
            (if b = 224 then decide (160 ≤ b2 ∧ b2 ≤ 191)
             else if b = 237 then decide (128 ≤ b2 ∧ b2 ≤ 159)
             else utf8Cont b2) && utf8Cont b3 && isValidUtf8 r
        | _ => false
      else if 240 ≤ b ∧ b ≤ 244 then
        match rest with
        | b2 :: b3 :: b4 :: r =>
            (if b = 240 then decide (144 ≤ b2 ∧ b2 ≤ 191)
             else if b = 244 then decide (128 ≤ b2 ∧ b2 ≤ 143)
             else utf8Cont b2) && utf8Cont b3 && utf8Cont b4 && isValidUtf8 r
        | _ => false
      else false

/-! ### Application errors (`src/shared/error.rs`) -/

/-- The `AppError` enum of `src/shared/error.rs`. -/
inductive AppError
  | DatabaseError (msg : String)
  | ValidationError (msg : String)
  | NotFound (msg : String)
  | AuthenticationError (msg : String)
  | AuthorizationError (msg : String)
  | RateLimitError (msg : String)
  | ConfigError (msg : String)
  | ExternalApiError (msg : String)
  | EncryptionError (msg : String)
  | InternalError (msg : String)
  | BadRequest (msg : String)
  | ServiceUnavailable (msg : String)
deriving DecidableEq, Repr

/-- The HTTP status `AppError::into_response` maps each error kind to. -/
def statusOf : AppError → Nat
  | .ValidationError _ => 400
  | .BadRequest _ => 400
  | .AuthenticationError _ => 401
  | .AuthorizationError _ => 403
  | .NotFound _ => 404
  | .RateLimitError _ => 429
  | .ServiceUnavailable _ => 503
  | .ExternalApiError _ => 502
  | .DatabaseError _ => 500
  | .ConfigError _ => 500
  | .EncryptionError _ => 500
  | .InternalError _ => 500

/-- The error code string `AppError::into_response` puts in the body. -/
def errorCodeOf : AppError → String
  | .ValidationError _ => "VALIDATION_ERROR"
  | .BadRequest _ => "BAD_REQUEST"
  | .AuthenticationError _ => "AUTHENTICATION_ERROR"
  | .AuthorizationError _ => "AUTHORIZATION_ERROR"
  | .NotFound _ => "NOT_FOUND"
  | .RateLimitError _ => "RATE_LIMIT_EXCEEDED"
  | .ServiceUnavailable _ => "SERVICE_UNAVAILABLE"
  | .ExternalApiError _ => "EXTERNAL_API_ERROR"
  | .DatabaseError _ => "INTERNAL_ERROR"
  | .ConfigError _ => "INTERNAL_ERROR"
  | .EncryptionError _ => "INTERNAL_ERROR"
  | .InternalError _ => "INTERNAL_ERROR"

/-! ### The credential vault (`src/shared/utils/encryption.rs`)
`EncryptionService` wraps `Aes256Gcm` from the `aes_gcm` crate. The cipher
itself is an external collaborator, embedded as any `AeadScheme`: a
deterministic authenticated cipher over (key, nonce, plaintext) whose
opening succeeds exactly on authentic sealings. AES-256-GCM satisfies this
contract (for a fixed key and nonce, encryption is a bijection and the tag
is a function of the ciphertext). The 96-bit random nonce drawn from
`OsRng` is an explicit argument of `encrypt`. -/

/-- An authenticated-encryption cipher: `aeadSeal key nonce plaintext` is the
ciphertext-with-tag, `aeadOpen` inverts it and fails (tag mismatch) on
anything that is not an authentic sealing under that key and nonce. -/
structure AeadScheme where
  aeadSeal : List Nat → List Nat → List Nat → List Nat
  aeadOpen : List Nat → List Nat → List Nat → Option (List Nat)
  aeadOpen_aeadSeal : ∀ k n pt, (∀ b ∈ pt, b < 256) →
    aeadOpen k n (aeadSeal k n pt) = some pt
  aeadOpen_inj : ∀ k n ct pt, aeadOpen k n ct = some pt → ct = aeadSeal k n pt
  aeadSeal_byte : ∀ k n pt, (∀ b ∈ pt, b < 256) →
    ∀ b ∈ aeadSeal k n pt, b < 256

/-- The vault: an AEAD cipher holding the fixed 256-bit key
(`EncryptionService` in `src/shared/utils/encryption.rs`). -/
structure EncryptionService where
  scheme : AeadScheme
  key : List Nat

/-- `EncryptionService::new`: base64-decode the configured key and require
exactly 32 bytes. -/
def EncryptionService.mk' (scheme : AeadScheme) (base64Key : List Nat) :
    Except AppError EncryptionService :=
  match b64decode base64Key with
  | none => .error (.ConfigError "Invalid encryption key")
  | some keyBytes =>
      if keyBytes.length ≠ 32 then
        .error (.ConfigError "Encryption key must be 32 bytes (256 bits)")
      else
        .ok ⟨scheme, keyBytes⟩

/-- `EncryptionService::encrypt`: aeadSeal under a fresh 96-bit nonce and
base64-encode `nonce(12) || ciphertext+tag`. The nonce, drawn from `OsRng`
in the source, is an explicit argument; AES-GCM sealing itself cannot fail,
so the `Result` of the source is always its `Ok` branch. -/
def EncryptionService.encrypt (svc : EncryptionService)
    (nonceBytes plaintext : List Nat) : List Nat :=
  b64encode (nonceBytes ++ svc.scheme.aeadSeal svc.key nonceBytes plaintext)

/-- `EncryptionService::decrypt`: base64-decode, require at least the
12-byte nonce, split, open the cipher, and require valid UTF-8. Every
failure is an `EncryptionError`. -/
def EncryptionService.decrypt (svc : EncryptionService)
    (encrypted : List Nat) : Except AppError (List Nat) :=
  match b64decode encrypted with
  | none => .error (.EncryptionError "Invalid ciphertext")
  | some combined =>
      if combined.length < 12 then
        .error (.EncryptionError "Ciphertext too short")
      else
        match svc.scheme.aeadOpen svc.key (combined.take 12) (combined.drop 12) with
        | none => .error (.EncryptionError "Decryption failed")
        | some plaintext =>
            if isValidUtf8 plaintext then .ok plaintext
            else .error (.EncryptionError "Invalid UTF-8")

/-- A small concrete `AeadScheme` used to evaluate the theorems on
concrete inputs: the tag is a checksum over plaintext, key and nonce, and
opening checks byte range and tag. -/
def sumScheme : AeadScheme where
  aeadSeal k n pt := pt ++ [(pt.sum + k.sum + n.sum) % 256]
  aeadOpen k n ct :=
    if ct ≠ [] ∧ (∀ b ∈ ct.dropLast, b < 256) ∧
        ct.getLastD 0 = (ct.dropLast.sum + k.sum + n.sum) % 256 then
      some ct.dropLast
    else none
  aeadOpen_aeadSeal := by
    intro k n pt hpt
    dsimp only
    have hne : pt ++ [(pt.sum + k.sum + n.sum) % 256] ≠ [] := by simp
    rw [if_pos]
    · simp
    · refine ⟨hne, ?_, ?_⟩
      · simpa using hpt
      · simp
  aeadOpen_inj := by
    intro k n ct pt h
    dsimp only at h ⊢
    by_cases hc : ct ≠ [] ∧ (∀ b ∈ ct.dropLast, b < 256) ∧
        ct.getLastD 0 = (ct.dropLast.sum + k.sum + n.sum) % 256
    · rw [if_pos hc] at h
      obtain ⟨hne, _, htag⟩ := hc
      obtain rfl : ct.dropLast = pt := by injection h
      have hgl : ct.getLast hne = ct.getLastD 0 := by
        rw [List.getLastD_eq_getLast?, List.getLast?_eq_getLast ct hne]
        rfl
      calc ct = ct.dropLast ++ [ct.getLast hne] := (ct.dropLast_append_getLast hne).symm
        _ = ct.dropLast ++ [(ct.dropLast.sum + k.sum + n.sum) % 256] := by
            rw [hgl, htag]
    · rw [if_neg hc] at h
      exact absurd h (by simp)
  aeadSeal_byte := by
    intro k n pt hpt b hb
    rcases List.mem_append.mp hb with h | h
    · exact hpt b h
    · simp at h
      omega

/-! ### Entities (`llm_hub_common`, synced copy in
`src/domain/entities/generated/`)
Field names are the source's snake_case fields in camelCase; `DateTime<Utc>`
is an `Int` timestamp, `ObjectId` the byte list of its 24-character hex
form. -/

/-- `ProjectStatus` (five lifecycle states). -/
inductive ProjectStatus
  | Active
  | Inactive
  | Suspended
  | Archived
  | Deleted
deriving DecidableEq, Repr

/-- `ProjectVisibility`. -/
inductive ProjectVisibility
  | Private
  | OrganizationWide
  | Public
deriving DecidableEq, Repr

/-- `RateLimits` (policy data only; not enforced on the request path). -/
structure RateLimits where
  requestsPerMinute : Nat
  tokensPerMinute : Option Nat
  maxFileSizeMb : Nat
  maxConcurrentRequests : Nat
deriving DecidableEq, Repr

/-- The `Project` customer record. -/
structure Project where
  id : Option (List Nat)
  organizationId : List Nat
  name : List Nat
  displayName : List Nat
  description : Option (List Nat)
  visibility : ProjectVisibility
  status : ProjectStatus
  budgetAllocation : Option ℚ
  spentAmount : ℚ
  rateLimits : Option RateLimits
  apiKey : Option (List Nat)
  createdBy : List Nat
  createdAt : Int
  updatedAt : Int
  archivedAt : Option Int
  deletedAt : Option Int
deriving DecidableEq, Repr

/-- `Project::is_active`. -/
def Project.isActive (p : Project) : Bool :=
  decide (p.status = ProjectStatus.Active)

/-- The `ProjectApiKey` customer credential: `keyHash` holds the
AES-256-GCM blob of the secret, `keyPfx`/`keySfx` the source's
`key_prefix`/`key_suffix` display fields derived from the plaintext. -/
structure ProjectApiKey where
  id : Option (List Nat)
  keyId : List Nat
  projectId : List Nat
  name : List Nat
  keyHash : List Nat
  keyPfx : List Nat
  keySfx : List Nat
  isActive : Bool
  createdAt : Int
  updatedAt : Int
  lastUsedAt : Option Int
  expiresAt : Option Int
deriving DecidableEq, Repr

/-! ### The Mongo project repository
(`src/infrastructure/database/mongodb/project_repo.rs`)
The MongoDB driver is an external collaborator: the two collections are
lists, the indexed `find` query is the corresponding filter, and cursor
iteration is list traversal (driver I/O errors are out of scope). Each
awaited repository operation is recorded in `awaitedOps` in program order;
`spawnedOps` records operations handed to `tokio::spawn` (this repository
spawns none — the `last_used_at` update is awaited inline). -/

/-- The repository state: the `project_api_keys` and `projects`
collections. -/
structure GatewayDb where
  projectApiKeys : List ProjectApiKey
  projects : List Project
deriving DecidableEq, Repr

/-- One repository operation of the authentication path. -/
inductive RepoOp
  | queryActiveKeys (keyPfx : List Nat)
  | updateLastUsedAt (id : Option (List Nat)) (now : Int)
  | fetchProject (oid : List Nat)
deriving DecidableEq, Repr

/-- Decidable equality of `Except` results, for evaluating outcomes on
concrete inputs. -/
instance {ε α : Type} [DecidableEq ε] [DecidableEq α] :
    DecidableEq (Except ε α) := fun x y =>
  match x, y with
  | .ok a, .ok b =>
      if h : a = b then isTrue (by rw [h])
      else isFalse (by intro hh; cases hh; exact h rfl)
  | .error a, .error b =>
      if h : a = b then isTrue (by rw [h])
      else isFalse (by intro hh; cases hh; exact h rfl)
  | .ok _, .error _ => isFalse (by intro hh; cases hh)
  | .error _, .ok _ => isFalse (by intro hh; cases hh)

/-- What `find_by_api_key` produces: the result, the awaited repository
operations in order, the operations handed to `tokio::spawn`, and the
warning log lines. -/
structure AuthOutcome where
  result : Except AppError Project
  awaitedOps : List RepoOp
  spawnedOps : List RepoOp
  warnings : List String
deriving DecidableEq, Repr

/-- Whether a byte is an ASCII hex digit. -/
def isHexDigitByte (c : Nat) : Bool :=
  decide ((48 ≤ c ∧ c ≤ 57) ∨ (97 ≤ c ∧ c ≤ 102) ∨ (65 ≤ c ∧ c ≤ 70))

/-- Lowercase an ASCII hex digit. -/
def hexLowerByte (c : Nat) : Nat :=
  if 65 ≤ c ∧ c ≤ 70 then c + 32 else c

/-- `ObjectId::parse_str`: a 24-character case-insensitive hex string; the
parsed id is embedded as its lowercased hex bytes. -/
def parseObjectId (s : List Nat) : Option (List Nat) :=
  if s.length = 24 ∧ s.all isHexDigitByte then
    some (s.map hexLowerByte)
  else none

/-- `find_by_id`: parse the project id and look the project up by `_id`;
an unparsable id is a `BadRequest`, a missing project a `NotFound`. -/
def findById (db : GatewayDb) (projectId : List Nat) : Except AppError Project :=
  match parseObjectId projectId with
  | none => .error (.BadRequest "Invalid project ID format")
  | some oid =>
      match db.projects.find? (fun p => p.id == some oid) with
      | some p => .ok p
      | none => .error (.NotFound "Project not found")

/-- The repository operations `find_by_id` awaits. -/
def findByIdOps (projectId : List Nat) : List RepoOp :=
  match parseObjectId projectId with
  | none => []
  | some oid => [RepoOp.fetchProject oid]

/-- The index prefix of `find_by_api_key`: the first 9 characters
(`"pk_"` + 6) when the key is long enough, else the whole key. -/
def keyPfxOf (apiKey : List Nat) : List Nat :=
  if 9 ≤ apiKey.length then apiKey.take 9 else apiKey

/-- The `find` query of `find_by_api_key`:
`{ is_active: true, key_prefix: keyPfx }`. -/
def activeKeysWithPfx (db : GatewayDb) (kp : List Nat) : List ProjectApiKey :=
  db.projectApiKeys.filter (fun k => k.isActive && k.keyPfx == kp)

/-- The candidate loop of `find_by_api_key`: skip expired candidates,
treat a decryption failure as a non-match and continue, and on the first
candidate whose decrypted secret equals the supplied key, await the
best-effort `last_used_at` update (`updateOk` is its outcome; a failure
only logs a warning) and resolve the owning project. Exhaustion is the
uniform `AuthenticationError "Invalid API key"`. -/
def findKeyLoop (svc : EncryptionService) (now : Int) (apiKey : List Nat)
    (db : GatewayDb) (updateOk : Bool) : List ProjectApiKey → AuthOutcome
  | [] =>
      { result := .error (.AuthenticationError "Invalid API key")
        awaitedOps := [], spawnedOps := [], warnings := [] }
  | keyDoc :: rest =>
      if (match keyDoc.expiresAt with
          | some t => decide (t < now)
          | none => false) then
        findKeyLoop svc now apiKey db updateOk rest
      else
        match svc.decrypt keyDoc.keyHash with
        | .ok decrypted =>
            if decrypted = apiKey then
              { result := findById db keyDoc.projectId
                awaitedOps :=
                  RepoOp.updateLastUsedAt keyDoc.id now :: findByIdOps keyDoc.projectId
                spawnedOps := []
                warnings :=
                  if updateOk then [] else ["Failed to update last_used_at"] }
            else
              findKeyLoop svc now apiKey db updateOk rest
        | .error _ =>
            findKeyLoop svc now apiKey db updateOk rest

/-- `find_by_api_key`: derive the index prefix, query the active
credentials sharing it, and run the candidate loop. `now` is the sampled
clock (`chrono::Utc::now()`). -/
def findByApiKey (svc : EncryptionService) (now : Int) (db : GatewayDb)
    (updateOk : Bool) (apiKey : List Nat) : AuthOutcome :=
  let kp := keyPfxOf apiKey
  let o := findKeyLoop svc now apiKey db updateOk (activeKeysWithPfx db kp)
  { o with awaitedOps := RepoOp.queryActiveKeys kp :: o.awaitedOps }

/-! ### The authentication middleware (`src/api/middleware/auth.rs`) -/

/-- Strip the `"Bearer "` scheme from the header value
(`str::strip_prefix`). -/
def stripBearer (h : List Nat) : Option (List Nat) :=
  if (strBytes "Bearer ").isPrefixOf h then some (h.drop 7) else none

/-- Whether a byte is ASCII whitespace (`char::is_whitespace` restricted
to one-byte characters). -/
def isWhitespaceByte (b : Nat) : Bool :=
  decide (b = 32 ∨ (9 ≤ b ∧ b ≤ 13))

/-- `str::trim` on a byte string. -/
def trimAscii (s : List Nat) : List Nat :=
  (s.dropWhile isWhitespaceByte).reverse.dropWhile isWhitespaceByte |>.reverse

/-- The `authenticate` middleware: extract and check the bearer token,
resolve it through `find_by_api_key`, and reject a resolved project that
is not active with an `AuthorizationError`. `authHeader` is the request's
`Authorization` header, `.ok p` the authenticated request carrying `p` in
its extensions. -/
def authenticate (svc : EncryptionService) (now : Int) (db : GatewayDb)
    (updateOk : Bool) (authHeader : Option (List Nat)) : Except AppError Project :=
  match authHeader with
  | none => .error (.AuthenticationError "Missing Authorization header")
  | some h =>
      match stripBearer h with
      | none => .error (.AuthenticationError "Invalid Authorization header format")
      | some afterScheme =>
          let apiKey := trimAscii afterScheme
          if apiKey = [] then
            .error (.AuthenticationError "Empty API key")
          else if ¬ (strBytes "pk_").isPrefixOf apiKey then
            .error (.AuthenticationError "Invalid API key format")
          else
            match (findByApiKey svc now db updateOk apiKey).result with
            | .error e => .error e
            | .ok project =>
                if project.isActive then .ok project
                else .error (.AuthorizationError "Project is not active")

/-! ### Chat DTOs and validation (`src/api/dto/chat.rs`) and the chat
handler (`src/api/handlers/chat.rs`)
The chat DTO strings carry no byte-level reasoning, so they stay Lean
`String`s; the `f32` sampling fields are `ℚ`. -/

/-- `ChatRole`. -/
inductive ChatRole
  | System
  | User
  | Assistant
deriving DecidableEq, Repr

/-- `ChatMessage`. -/
structure ChatMessage where
  role : ChatRole
  content : String
deriving DecidableEq, Repr

/-- `ChatCompletionRequest` (serde defaults: temperature 1, top_p 1,
penalties 0, stream false). -/
structure ChatCompletionRequest where
  model : String
  messages : List ChatMessage
  temperature : ℚ
  maxTokens : Option Nat
  stream : Bool
  topP : ℚ
  frequencyPenalty : ℚ
  presencePenalty : ℚ
deriving DecidableEq, Repr

/-- `ChatCompletionRequest::validate`, in the source's check order. -/
def ChatCompletionRequest.validate (r : ChatCompletionRequest) :
    Except String Unit :=
  if r.messages = [] then
    .error "messages array cannot be empty"
  else if r.model = "" then
    .error "model cannot be empty"
  else if ¬ (0 ≤ r.temperature ∧ r.temperature ≤ 2) then
    .error "temperature must be between 0 and 2"
  else if ¬ (0 ≤ r.topP ∧ r.topP ≤ 1) then
    .error "top_p must be between 0 and 1"
  else if ¬ (-2 ≤ r.frequencyPenalty ∧ r.frequencyPenalty ≤ 2) then
    .error "frequency_penalty must be between -2 and 2"
  else if ¬ (-2 ≤ r.presencePenalty ∧ r.presencePenalty ≤ 2) then
    .error "presence_penalty must be between -2 and 2"
  else
    .ok ()

/-- The error body of the chat handler (`ChatError` in
`src/api/dto/chat.rs`): `type`, `message`, `code`. -/
structure ChatError where
  etype : String
  message : String
  code : String
deriving DecidableEq, Repr

/-- What `create_chat_completion` decides before any upstream traffic:
reject with a status and error body, or issue the provider call with the
resolved upstream key. -/
inductive HandlerAction
  | reject (status : Nat) (err : ChatError)
  | callProvider (apiKey : String) (req : ChatCompletionRequest)
deriving DecidableEq, Repr

/-- The pre-upstream phase of `create_chat_completion`: validate (an
invalid request is a 400 with type `invalid_request_error` and code
`invalid_request`, and no provider call), then resolve `OPENAI_API_KEY`
from the environment (absent: 500), then call the provider. -/
def createChatCompletion (envOpenaiKey : Option String)
    (request : ChatCompletionRequest) : HandlerAction :=
  match request.validate with
  | .error e =>
      .reject 400 ⟨"invalid_request_error", e, "invalid_request"⟩
  | .ok _ =>
      match envOpenaiKey with
      | none =>
          .reject 500
            ⟨"configuration_error", "OpenAI API key not configured",
             "missing_api_key"⟩
      | some k => .callProvider k request

/-! ### The OpenAI cost table
(`calculate_openai_cost` in `src/domain/services/providers/openai.rs`)
The `f64` price literals are embedded by their decimal values. -/

/-- Whether the model name starts with the given literal
(`str::starts_with`). -/
def modelStarts (pre : String) (model : List Nat) : Bool :=
  (strBytes pre).isPrefixOf model

/-- `calculate_openai_cost`: select the per-1000-token price pair by
model-name prefix (default: GPT-3.5 pricing) and combine linearly. -/
def calculateOpenaiCost (model : List Nat)
    (promptTokens completionTokens : Nat) : ℚ :=
  let p : ℚ × ℚ :=
    if modelStarts "gpt-4-turbo" model || modelStarts "gpt-4-1106" model then
      (0.01, 0.03)
    else if modelStarts "gpt-4" model then (0.03, 0.06)
    else if modelStarts "gpt-3.5-turbo" model then (0.0005, 0.0015)
    else (0.0005, 0.0015)
  (promptTokens : ℚ) / 1000 * p.1 + (completionTokens : ℚ) / 1000 * p.2

/-- The price table as §8 of the specification words it: a static list of
(family prefix, input rate, output rate) rows tried in order, an
unrecognized model name falling back to the cheapest tier. Written from
the specification for comparison with `calculateOpenaiCost`. -/
def specPriceRows : List (String × ℚ × ℚ) :=
  [("gpt-4-turbo", 0.01, 0.03), ("gpt-4-1106", 0.01, 0.03),
   ("gpt-4", 0.03, 0.06), ("gpt-3.5-turbo", 0.0005, 0.0015)]

/-- The fallback rates the specification calls the cheapest tier. -/
def specFallbackRates : ℚ × ℚ :=
  (0.0005, 0.0015)

/-- Rate selection as the specification words it: first matching family
prefix, else the fallback tier. -/
def specRatesFor (model : List Nat) : ℚ × ℚ :=
  match specPriceRows.find? (fun row => modelStarts row.1 model) with
  | some row => row.2
  | none => specFallbackRates

/-! ### Transcription orchestration (`src/domain/services/transcription.rs`)
The provider HTTP call, the key-service lookups, the SHA-256 digest, the
wall clock and the generated UUID are external effects, passed in through
`TranscribeDeps`. `tokio::spawn`ed persistence appears as `spawnedWrites`
(records the detached task will persist) plus `backgroundWarnings` (the
log line the detached task emits when its write fails, controlled by
`writeOk`); neither feeds back into the result. -/

/-- `LlmProvider` (shared types). -/
inductive LlmProvider
  | OpenAI
  | Anthropic
  | Google
  | Azure
  | AwsBedrock
deriving DecidableEq, Repr

/-- `ResponseFormat`. -/
inductive ResponseFormat
  | Json
  | Text
  | Srt
  | VerboseJson
  | Vtt
deriving DecidableEq, Repr

/-- `TimestampGranularity`. -/
inductive TimestampGranularity
  | Word
  | Segment
deriving DecidableEq, Repr

/-- `TranscriptionRequest`. -/
structure TranscriptionRequest where
  fileData : List Nat
  fileName : String
  model : Option String
  language : Option String
  prompt : Option String
  responseFormat : Option ResponseFormat
  temperature : Option ℚ
  timestampGranularities : Option (List TimestampGranularity)
  llmApiKeyId : Option String
deriving DecidableEq, Repr

/-- `TranscriptionSegment`. -/
structure TranscriptionSegment where
  id : Int
  start : ℚ
  stop : ℚ
  text : String
  tokens : Option (List Int)
  temperature : Option ℚ
  avgLogprob : Option ℚ
  compressionRatio : Option ℚ
  noSpeechProb : Option ℚ
deriving DecidableEq, Repr

/-- `TranscriptionWord`. -/
structure TranscriptionWord where
  word : String
  start : ℚ
  stop : ℚ
deriving DecidableEq, Repr

/-- `TranscriptionUsage`. -/
structure TranscriptionUsage where
  audioDurationSeconds : ℚ
  tokensUsed : Option Int
  estimatedCostUsd : Option ℚ
deriving DecidableEq, Repr

/-- `TranscriptionResponse`. -/
structure TranscriptionResponse where
  text : String
  language : Option String
  duration : Option ℚ
  segments : Option (List TranscriptionSegment)
  words : Option (List TranscriptionWord)
  usage : Option TranscriptionUsage
deriving DecidableEq, Repr

/-- `TranscriptionHistory` (the immutable usage record). -/
structure TranscriptionHistory where
  id : Option (List Nat)
  transcriptionId : String
  projectId : String
  provider : LlmProvider
  fileHash : String
  fileName : String
  fileSizeBytes : Nat
  durationSeconds : Option ℚ
  model : String
  language : Option String
  text : String
  costUsd : ℚ
  responseTimeMs : Nat
  fromCache : Bool
  createdAt : Int
deriving DecidableEq, Repr

/-- `TranscriptionHistory::new`: the generated `trans_<uuid>` id and the
creation clock are the explicit `freshId`/`now`. -/
def TranscriptionHistory.new (projectId : String) (provider : LlmProvider)
    (fileHash fileName : String) (fileSizeBytes : Nat)
    (durationSeconds : Option ℚ) (model : String) (language : Option String)
    (text : String) (costUsd : ℚ) (responseTimeMs : Nat) (fromCache : Bool)
    (freshId : String) (now : Int) : TranscriptionHistory :=
  { id := none
    transcriptionId := freshId
    projectId := projectId
    provider := provider
    fileHash := fileHash
    fileName := fileName
    fileSizeBytes := fileSizeBytes
    durationSeconds := durationSeconds
    model := model
    language := language
    text := text
    costUsd := costUsd
    responseTimeMs := responseTimeMs
    fromCache := fromCache
    createdAt := now }

/-- The external effects of `TranscriptionService::transcribe`:
`getDecryptedKey` is `LlmApiKeyService::get_decrypted_key`, `getDefaultKey`
is `get_default_key_for_provider` for the project and OpenAI,
`callProvider` the upstream transcription call with the decrypted secret,
`sha256Hex` the digest, `writeOk` the outcome of the detached
`repository.create`. -/
structure TranscribeDeps where
  getDecryptedKey : String → Except AppError String
  getDefaultKey : Except AppError (Option String)
  callProvider : String → Except AppError TranscriptionResponse
  sha256Hex : List Nat → String
  responseTimeMs : Nat
  freshId : String
  now : Int
  writeOk : Bool

/-- What `transcribe` produces: the caller's result, the usage records the
detached task is to persist, and the log lines the detached task emits on
a failed write. -/
structure TranscribeOutcome where
  result : Except AppError TranscriptionResponse
  spawnedWrites : List TranscriptionHistory
  backgroundWarnings : List String

/-- The provider-credential resolution step of `transcribe`: an explicit
`llm_api_key_id` is fetched and decrypted through the key service, else
the project's default key for the provider, a missing default being a
`ConfigError`. -/
def resolveApiKey (deps : TranscribeDeps) (request : TranscriptionRequest) :
    Except AppError String :=
  match request.llmApiKeyId with
  | some keyId => deps.getDecryptedKey keyId
  | none =>
      match deps.getDefaultKey with
      | .error e => .error e
      | .ok none =>
          .error (.ConfigError "No LLM API key configured for provider: Openai")
      | .ok (some k) => .ok k

/-- `TranscriptionService::log_usage`: build the immutable history record
(cost zero when served from cache, else the provider's estimate or zero)
and hand it to a detached `tokio::spawn` write whose failure is only a
log line. Always returns `Ok(())` to `transcribe`. -/
def logUsage (deps : TranscribeDeps) (projectId : String)
    (request : TranscriptionRequest) (response : TranscriptionResponse)
    (fileHash : String) (responseTimeMs : Nat) (fromCache : Bool) :
    List TranscriptionHistory × List String :=
  let costUsd : ℚ :=
    if fromCache then 0
    else ((response.usage.bind (fun u => u.estimatedCostUsd)).getD 0)
  let history := TranscriptionHistory.new projectId LlmProvider.OpenAI
    fileHash request.fileName request.fileData.length response.duration
    (request.model.getD "whisper-1") response.language response.text
    costUsd responseTimeMs fromCache deps.freshId deps.now
  (([history]),
   if deps.writeOk then [] else ["Failed to log transcription usage"])

/-- `TranscriptionService::transcribe`: hash the payload, resolve the
provider credential, call the provider, and on success log usage (cost,
latency, `from_cache = false`) through the detached task; a provider
failure propagates and logs nothing. -/
def transcribe (deps : TranscribeDeps) (projectId : String)
    (request : TranscriptionRequest) : TranscribeOutcome :=
  let fileHash := deps.sha256Hex request.fileData
  match resolveApiKey deps request with
  | .error e => { result := .error e, spawnedWrites := [], backgroundWarnings := [] }
  | .ok apiKey =>
      match deps.callProvider apiKey with
      | .error e =>
          { result := .error e, spawnedWrites := [], backgroundWarnings := [] }
      | .ok response =>
          let logged := logUsage deps projectId request response fileHash
            deps.responseTimeMs false
          { result := .ok response
            spawnedWrites := logged.1
            backgroundWarnings := logged.2 }

/-! ### Concrete instances for evaluating the theorems -/

/-- A vault instance over the checksum cipher with an all-zero 256-bit
key. -/
def svcW : EncryptionService :=
  ⟨sumScheme, List.replicate 32 0⟩

/-- A fixed 96-bit nonce. -/
def nonceW : List Nat :=
  List.replicate 12 0

/-- A sample customer secret of the `pk_` convention. -/
def secretW : List Nat :=
  strBytes "pk_live_4242"

/-- The stored blob of `secretW` under `svcW` and `nonceW`. -/
def keyHashW : List Nat :=
  svcW.encrypt nonceW secretW

/-- A sample project ObjectId (24 hex characters). -/
def oidHexW : List Nat :=
  strBytes "507f1f77bcf86cd799439011"

/-- A sample active project owning the credential. -/
def projW : Project :=
  { id := some oidHexW
    organizationId := strBytes "org_1"
    name := strBytes "demo"
    displayName := strBytes "Demo"
    description := none
    visibility := ProjectVisibility.Private
    status := ProjectStatus.Active
    budgetAllocation := none
    spentAmount := 0
    rateLimits := none
    apiKey := none
    createdBy := strBytes "user_1"
    createdAt := 0
    updatedAt := 0
    archivedAt := none
    deletedAt := none }

/-- The same project suspended. -/
def projSuspendedW : Project :=
  { projW with status := ProjectStatus.Suspended }

/-- The stored credential for `secretW`. -/
def keyDocW : ProjectApiKey :=
  { id := some (strBytes "a1b2")
    keyId := strBytes "pak_1"
    projectId := oidHexW
    name := strBytes "default"
    keyHash := keyHashW
    keyPfx := keyPfxOf secretW
    keySfx := strBytes "4242"
    isActive := true
    createdAt := 0
    updatedAt := 0
    lastUsedAt := none
    expiresAt := none }

/-- `keyDocW` expired in the past (lookup clock is 0). -/
def keyDocExpiredW : ProjectApiKey :=
  { keyDocW with expiresAt := some (-5) }

/-- `keyDocW` with a corrupted stored blob: valid base64, long enough,
but its tag does not verify under `svcW`. -/
def keyDocCorruptW : ProjectApiKey :=
  { keyDocW with keyHash := strBytes "AAAAAAAAAAAAAAAAAAAB" }

/-- The database holding the one credential and its active project. -/
def dbW : GatewayDb :=
  { projectApiKeys := [keyDocW], projects := [projW] }

/-- The same database with the owning project suspended. -/
def dbSuspendedW : GatewayDb :=
  { projectApiKeys := [keyDocW], projects := [projSuspendedW] }

/-- A blob that opens under `svcW` to the non-UTF-8 byte `0xFF`. -/
def blobNonUtf8W : List Nat :=
  b64encode (List.replicate 12 0 ++ [255, 255])

/-- An in-range chat request. -/
def reqInRangeW : ChatCompletionRequest :=
  { model := "gpt-4"
    messages := [⟨ChatRole.User, "hi"⟩]
    temperature := 1
    maxTokens := none
    stream := false
    topP := 1
    frequencyPenalty := 0
    presencePenalty := 0 }

/-- The same request with `temperature = 3.0`. -/
def reqTemp3W : ChatCompletionRequest :=
  { reqInRangeW with temperature := 3 }

/-- A sample provider transcription response. -/
def respW : TranscriptionResponse :=
  { text := "hello"
    language := some "en"
    duration := some 2
    segments := none
    words := none
    usage := some ⟨2, none, some 0.0002⟩ }

/-- Concrete transcription effects: default key resolution succeeds, the
provider answers `respW`, the detached write succeeds. -/
def depsW : TranscribeDeps :=
  { getDecryptedKey := fun _ => .ok "sk-explicit"
    getDefaultKey := .ok (some "sk-default")
    callProvider := fun _ => .ok respW
    sha256Hex := fun _ => "feedc0de"
    responseTimeMs := 42
    freshId := "trans_1"
    now := 0
    writeOk := true }

/-- A sample audio request using the default provider key. -/
def reqAudioW : TranscriptionRequest :=
  { fileData := [1, 2, 3]
    fileName := "a.wav"
    model := none
    language := none
    prompt := none
    responseFormat := none
    temperature := none
    timestampGranularities := none
    llmApiKeyId := none }

/-! ## Theorems -/

/-- Decoding inverts encoding on each alphabet character. -/
theorem b64_sextet_char : ∀ s < 64, b64sextetOfChar (b64charOfSextet s) = some s := by
  decide

/-- No alphabet character is the pad `=`. -/
theorem b64_char_ne_pad : ∀ s < 64, b64charOfSextet s ≠ 61 := by
  decide

/-- base64 decoding inverts base64 encoding on byte lists. -/
theorem b64decode_b64encode :
    ∀ bs : List Nat, (∀ b ∈ bs, b < 256) → b64decode (b64encode bs) = some bs
  | [] => fun _ => rfl
  | [b1] => fun h => by
      have hb1 : b1 < 256 := h b1 (by simp)
      have h1 := b64_sextet_char (b1 / 4) (by omega)
      have h2 := b64_sextet_char (b1 % 4 * 16) (by omega)
      have hz : b1 % 4 * 16 % 16 = 0 := by omega
      simp only [b64encode, b64decode, h1, h2]
      simp [hz]
      omega
  | [b1, b2] => fun h => by
      have hb1 : b1 < 256 := h b1 (by simp)
      have hb2 : b2 < 256 := h b2 (by simp)
      have h1 := b64_sextet_char (b1 / 4) (by omega)
      have h2 := b64_sextet_char (b1 % 4 * 16 + b2 / 16) (by omega)
      have h3 := b64_sextet_char (b2 % 16 * 4) (by omega)
      have hne := b64_char_ne_pad (b2 % 16 * 4) (by omega)
      have hz : b2 % 16 * 4 % 4 = 0 := by omega
      simp only [b64encode, b64decode, h1, h2, h3, if_neg hne]
      simp [hz]
      omega
  | b1 :: b2 :: b3 :: rest => fun h => by
      have hb1 : b1 < 256 := h b1 (by simp)
      have hb2 : b2 < 256 := h b2 (by simp)
      have hb3 : b3 < 256 := h b3 (by simp)
      have ih := b64decode_b64encode rest (fun b hb => h b (by simp [hb]))
      have h1 := b64_sextet_char (b1 / 4) (by omega)
      have h2 := b64_sextet_char (b1 % 4 * 16 + b2 / 16) (by omega)
      have h3 := b64_sextet_char (b2 % 16 * 4 + b3 / 64) (by omega)
      have h4 := b64_sextet_char (b3 % 64) (by omega)
      have hne3 := b64_char_ne_pad (b2 % 16 * 4 + b3 / 64) (by omega)
      have hne4 := b64_char_ne_pad (b3 % 64) (by omega)
      simp only [b64encode, b64decode, h1, h2, h3, h4, if_neg hne3, if_neg hne4, ih]
      simp
      refine ⟨?_, ?_, ?_⟩ <;> omega

/-- Decrypting an encryption of a byte-valid UTF-8 plaintext under the
same vault returns the plaintext. -/
theorem decrypt_encrypt_ok (svc : EncryptionService) (nonceBytes pt : List Nat)
    (hn : nonceBytes.length = 12) (hnb : ∀ b ∈ nonceBytes, b < 256)
    (hpb : ∀ b ∈ pt, b < 256) (hutf : isValidUtf8 pt = true) :
    svc.decrypt (svc.encrypt nonceBytes pt) = .ok pt := by
  have hsb := svc.scheme.aeadSeal_byte svc.key nonceBytes pt hpb
  have hall : ∀ b ∈ nonceBytes ++ svc.scheme.aeadSeal svc.key nonceBytes pt, b < 256 := by
    intro b hb
    rcases List.mem_append.mp hb with hb | hb
    · exact hnb b hb
    · exact hsb b hb
  have hdec := b64decode_b64encode _ hall
  have hlen : ¬ (nonceBytes ++ svc.scheme.aeadSeal svc.key nonceBytes pt).length < 12 := by
    simp [List.length_append, hn]
  have htake : (nonceBytes ++ svc.scheme.aeadSeal svc.key nonceBytes pt).take 12 = nonceBytes :=
    List.take_left' hn
  have hdrop : (nonceBytes ++ svc.scheme.aeadSeal svc.key nonceBytes pt).drop 12 =
      svc.scheme.aeadSeal svc.key nonceBytes pt :=
    List.drop_left' hn
  simp only [EncryptionService.decrypt, EncryptionService.encrypt, hdec, if_neg hlen,
    htake, hdrop, svc.scheme.aeadOpen_aeadSeal svc.key nonceBytes pt hpb, hutf, if_pos]

/-- C2: with a fixed valid key, decrypt inverts encrypt on every
plaintext; an input that is not valid base64, or whose decoded form is
shorter than the 12-byte nonce, or whose tag does not verify, yields an
`EncryptionError` (each is a returned error, never a panic); and a
successful decrypt only ever returns the exact plaintext whose authentic
sealing the blob carries. -/
theorem c2_vault_roundtrip_and_tamper (svc : EncryptionService)
    (nonceBytes pt : List Nat) (hn : nonceBytes.length = 12)
    (hnb : ∀ b ∈ nonceBytes, b < 256) (hpb : ∀ b ∈ pt, b < 256)
    (hutf : isValidUtf8 pt = true) :
    svc.decrypt (svc.encrypt nonceBytes pt) = .ok pt
    ∧ (∀ s, b64decode s = none →
        svc.decrypt s = .error (.EncryptionError "Invalid ciphertext"))
    ∧ (∀ s c, b64decode s = some c → c.length < 12 →
        svc.decrypt s = .error (.EncryptionError "Ciphertext too short"))
    ∧ (∀ s c, b64decode s = some c → ¬ c.length < 12 →
        svc.scheme.aeadOpen svc.key (c.take 12) (c.drop 12) = none →
        svc.decrypt s = .error (.EncryptionError "Decryption failed"))
    ∧ (∀ s c pt', b64decode s = some c → svc.decrypt s = .ok pt' →
        c = c.take 12 ++ svc.scheme.aeadSeal svc.key (c.take 12) pt') := by
  refine ⟨decrypt_encrypt_ok svc nonceBytes pt hn hnb hpb hutf, ?_, ?_, ?_, ?_⟩
  · intro s hnone
    simp only [EncryptionService.decrypt, hnone]
  · intro s c hsome hlt
    simp only [EncryptionService.decrypt, hsome, if_pos hlt]
  · intro s c hsome hge hop
    simp only [EncryptionService.decrypt, hsome, if_neg hge, hop]
  · intro s c pt' hsome hok
    simp only [EncryptionService.decrypt, hsome] at hok
    by_cases hlt : c.length < 12
    · rw [if_pos hlt] at hok
      cases hok
    · rw [if_neg hlt] at hok
      cases hop : svc.scheme.aeadOpen svc.key (c.take 12) (c.drop 12) with
      | none => rw [hop] at hok; cases hok
      | some q =>
          rw [hop] at hok
          by_cases hq : isValidUtf8 q
          · simp only [hq, if_pos] at hok
            obtain rfl : q = pt' := by injection hok
            have := svc.scheme.aeadOpen_inj svc.key (c.take 12) (c.drop 12) q hop
            calc c = c.take 12 ++ c.drop 12 := (List.take_append_drop 12 c).symm
              _ = c.take 12 ++ svc.scheme.aeadSeal svc.key (c.take 12) q := by rw [← this]
          · simp [hq] at hok

/-- Witness for C2: the round trip and the invalid-base64 rejection on
concrete data. -/
theorem c2_vault_roundtrip_and_tamper_witness :
    svcW.decrypt (svcW.encrypt nonceW secretW) = .ok secretW
    ∧ svcW.decrypt (strBytes "!!") = .error (.EncryptionError "Invalid ciphertext") := by
  have h := c2_vault_roundtrip_and_tamper svcW nonceW secretW (by decide) (by decide)
    (by decide) (by decide)
  exact ⟨h.1, h.2.1 (strBytes "!!") (by decide)⟩

/-- C10: when an authenticated blob opens to a byte sequence that is not
valid UTF-8, decrypt rejects it with the `EncryptionError "Invalid UTF-8"`
rather than returning a lossy string. -/
theorem c10_decrypt_requires_utf8 (svc : EncryptionService) (s c pt : List Nat)
    (hsome : b64decode s = some c) (hge : ¬ c.length < 12)
    (hop : svc.scheme.aeadOpen svc.key (c.take 12) (c.drop 12) = some pt)
    (hbad : isValidUtf8 pt = false) :
    svc.decrypt s = .error (.EncryptionError "Invalid UTF-8") := by
  simp only [EncryptionService.decrypt, hsome, if_neg hge, hop, hbad]
  simp

/-- Witness for C10: a concrete authentic blob carrying the byte `0xFF`
is rejected as invalid UTF-8. -/
theorem c10_decrypt_requires_utf8_witness :
    svcW.decrypt blobNonUtf8W = .error (.EncryptionError "Invalid UTF-8") :=
  c10_decrypt_requires_utf8 svcW blobNonUtf8W
    (List.replicate 12 0 ++ [255, 255]) [255] (by decide) (by decide)
    (by decide) (by decide)

/-- On a database holding exactly one active credential indexed under the
supplied key's prefix, not expired, whose blob decrypts to the supplied
key, `find_by_api_key` resolves the owning project, awaits the
`last_used_at` update before the project fetch, and spawns nothing — for
either outcome of the update. -/
theorem findByApiKey_single_match (svc : EncryptionService) (now : Int)
    (db : GatewayDb) (updateOk : Bool) (S : List Nat) (k : ProjectApiKey)
    (hdb : db.projectApiKeys = [k]) (hact : k.isActive = true)
    (hpfx : k.keyPfx = keyPfxOf S)
    (hexp : ∀ t, k.expiresAt = some t → ¬ t < now)
    (hdec : svc.decrypt k.keyHash = .ok S) :
    findByApiKey svc now db updateOk S =
      { result := findById db k.projectId
        awaitedOps := RepoOp.queryActiveKeys (keyPfxOf S) ::
          RepoOp.updateLastUsedAt k.id now :: findByIdOps k.projectId
        spawnedOps := []
        warnings := if updateOk then [] else ["Failed to update last_used_at"] } := by
  have hcand : activeKeysWithPfx db (keyPfxOf S) = [k] := by
    simp [activeKeysWithPfx, hdb, hact, hpfx]
  have hnotexp : (match k.expiresAt with
      | some t => decide (t < now)
      | none => false) = false := by
    cases hke : k.expiresAt with
    | none => rfl
    | some t => simpa using hexp t hke
  simp only [findByApiKey, hcand, findKeyLoop, hnotexp, Bool.false_eq_true, if_false,
    hdec, if_pos rfl]
  simp

/-- C3: an expired candidate (expiry set and in the past at the lookup
clock) is skipped outright — the candidate loop's outcome over it is the
outcome over the remaining candidates, with no decryption, no comparison
and no repository operation from it, whatever its blob decrypts to. -/
theorem c3_expired_key_never_matches (svc : EncryptionService) (now : Int)
    (apiKey : List Nat) (db : GatewayDb) (updateOk : Bool)
    (keyDoc : ProjectApiKey) (rest : List ProjectApiKey) (t : Int)
    (hexp : keyDoc.expiresAt = some t) (hpast : t < now) :
    findKeyLoop svc now apiKey db updateOk (keyDoc :: rest) =
    findKeyLoop svc now apiKey db updateOk rest := by
  simp only [findKeyLoop, hexp]
  simp [hpast]

/-- Witness for C3: a concrete expired credential whose stored secret is
exactly the presented key is skipped all the same. -/
theorem c3_expired_key_never_matches_witness :
    svcW.decrypt keyDocExpiredW.keyHash = .ok secretW
    ∧ findKeyLoop svcW 0 secretW dbW true [keyDocExpiredW] =
      findKeyLoop svcW 0 secretW dbW true [] :=
  ⟨by decide,
   c3_expired_key_never_matches svcW 0 secretW dbW true keyDocExpiredW [] (-5)
     (by decide) (by decide)⟩

/-- C5: a candidate whose blob fails to decrypt is passed over and the
scan continues (one corrupted record never aborts the scan); and over any
candidate set in which every record is expired, undecryptable or a
non-match, the outcome is the one fixed
`AuthenticationError "Invalid API key"` — the same message whatever the
candidates were, disclosing neither their number nor their failures. -/
theorem c5_scan_resilience_uniform_failure (svc : EncryptionService)
    (now : Int) (apiKey : List Nat) (db : GatewayDb) (updateOk : Bool)
    (keyDoc : ProjectApiKey) (rest cands : List ProjectApiKey) (e : AppError)
    (hfail : svc.decrypt keyDoc.keyHash = .error e)
    (hall : ∀ k ∈ cands,
      (∃ t, k.expiresAt = some t ∧ t < now)
      ∨ (∃ e', svc.decrypt k.keyHash = .error e')
      ∨ (∃ d, svc.decrypt k.keyHash = .ok d ∧ d ≠ apiKey)) :
    findKeyLoop svc now apiKey db updateOk (keyDoc :: rest) =
      findKeyLoop svc now apiKey db updateOk rest
    ∧ (findKeyLoop svc now apiKey db updateOk cands).result =
      .error (.AuthenticationError "Invalid API key") := by
  constructor
  · by_cases hx : (match keyDoc.expiresAt with
        | some t => decide (t < now)
        | none => false) = true
    · simp only [findKeyLoop, hx, if_true]
    · simp only [findKeyLoop, Bool.not_eq_true] at hx ⊢
      simp only [hx, Bool.false_eq_true, if_false, hfail]
  · induction cands with
    | nil => rfl
    | cons k ks ih =>
        have hrest := ih (fun k' hk' => hall k' (by simp [hk']))
        have hk := hall k (by simp)
        by_cases hx : (match k.expiresAt with
            | some t => decide (t < now)
            | none => false) = true
        · simpa only [findKeyLoop, hx, if_true] using hrest
        · simp only [Bool.not_eq_true] at hx
          rcases hk with ⟨t, hexp, hlt⟩ | ⟨e', hfail'⟩ | ⟨d, hok, hne⟩
          · exact absurd hx (by simp [hexp, hlt])
          · simpa only [findKeyLoop, hx, Bool.false_eq_true, if_false, hfail'] using hrest
          · simpa only [findKeyLoop, hx, Bool.false_eq_true, if_false, hok, if_neg hne]
              using hrest

/-- Witness for C5: a concrete corrupted record is passed over, and the
two-candidate set of the corrupted record and an expired one ends in the
uniform invalid-key error. -/
theorem c5_scan_resilience_uniform_failure_witness :
    findKeyLoop svcW 0 secretW dbW true [keyDocCorruptW] =
      findKeyLoop svcW 0 secretW dbW true []
    ∧ (findKeyLoop svcW 0 secretW dbW true [keyDocCorruptW, keyDocExpiredW]).result =
      .error (.AuthenticationError "Invalid API key") :=
  c5_scan_resilience_uniform_failure svcW 0 secretW dbW true keyDocCorruptW []
    [keyDocCorruptW, keyDocExpiredW]
    (.EncryptionError "Decryption failed") (by decide)
    (by
      intro k hk
      simp only [List.mem_cons, List.not_mem_nil, or_false] at hk
      rcases hk with rfl | rfl
      · exact Or.inr (Or.inl ⟨AppError.EncryptionError "Decryption failed", by decide⟩)
      · exact Or.inl ⟨-5, by decide, by decide⟩)

/-- A candidate whose expiry is unset or not in the past fails the
loop's expiry test. -/
theorem expiryCheck_false (k : ProjectApiKey) (now : Int)
    (hexp : ∀ t, k.expiresAt = some t → ¬ t < now) :
    (match k.expiresAt with
      | some t => decide (t < now)
      | none => false) = false := by
  cases hke : k.expiresAt with
  | none => rfl
  | some t => simpa using hexp t hke

/-- C1: with exactly one stored credential — active, non-expired, indexed
under the secret `S`'s prefix, decrypting to `S` — authenticating with
`S` returns the owning active project, and authenticating with any
`S' ≠ S` (sharing `S`'s index prefix or not) fails with the
authentication error: the match is full equality of the decrypted
plaintext with the supplied token. -/
theorem c1_authentication_correctness (svc : EncryptionService) (now : Int)
    (db : GatewayDb) (updateOk : Bool) (S : List Nat) (k : ProjectApiKey)
    (p : Project)
    (hdb : db.projectApiKeys = [k]) (hact : k.isActive = true)
    (hpfx : k.keyPfx = keyPfxOf S)
    (hexp : ∀ t, k.expiresAt = some t → ¬ t < now)
    (hdec : svc.decrypt k.keyHash = .ok S)
    (hproj : findById db k.projectId = .ok p)
    (hpact : p.isActive = true) :
    (findByApiKey svc now db updateOk S).result = .ok p
    ∧ ∀ S', S' ≠ S →
        (findByApiKey svc now db updateOk S').result =
        .error (.AuthenticationError "Invalid API key") := by
  constructor
  · rw [findByApiKey_single_match svc now db updateOk S k hdb hact hpfx hexp hdec]
    simpa using hproj
  · intro S' hne
    by_cases hc : k.keyPfx = keyPfxOf S'
    · have hcand : activeKeysWithPfx db (keyPfxOf S') = [k] := by
        simp [activeKeysWithPfx, hdb, hact, hc]
      have hnotexp := expiryCheck_false k now hexp
      have hneq : ¬ (S = S') := fun heq => hne heq.symm
      simp only [findByApiKey, hcand, findKeyLoop, hnotexp, Bool.false_eq_true,
        if_false, hdec, if_neg hneq]
    · have hcand : activeKeysWithPfx db (keyPfxOf S') = [] := by
        simp [activeKeysWithPfx, hdb, hc]
      simp [findByApiKey, hcand, findKeyLoop]

/-- Witness for C1: the stored secret authenticates to the owning
project; a different secret sharing its nine-character index prefix is
rejected with the authentication error. -/
theorem c1_authentication_correctness_witness :
    (findByApiKey svcW 0 dbW true secretW).result = .ok projW
    ∧ (findByApiKey svcW 0 dbW true (strBytes "pk_live_4999")).result =
      .error (.AuthenticationError "Invalid API key") := by
  have h := c1_authentication_correctness svcW 0 dbW true secretW keyDocW projW
    rfl (by decide) (by decide) (by intro t ht; simp [keyDocW] at ht)
    (by decide) (by decide) (by decide)
  exact ⟨h.1, h.2 (strBytes "pk_live_4999") (by decide)⟩

/-- C4: a matching, active, non-expired credential whose owning project
is not `Active` makes the middleware reject with the
`AuthorizationError` — mapped to 403 — and not with any
`AuthenticationError`. -/
theorem c4_inactive_project_rejection (svc : EncryptionService) (now : Int)
    (db : GatewayDb) (updateOk : Bool) (S : List Nat) (k : ProjectApiKey)
    (p : Project)
    (hdb : db.projectApiKeys = [k]) (hact : k.isActive = true)
    (hpfx : k.keyPfx = keyPfxOf S)
    (hexp : ∀ t, k.expiresAt = some t → ¬ t < now)
    (hdec : svc.decrypt k.keyHash = .ok S)
    (hproj : findById db k.projectId = .ok p)
    (hpnact : p.status ≠ ProjectStatus.Active)
    (hpk : (strBytes "pk_").isPrefixOf S = true)
    (htrim : trimAscii S = S) :
    authenticate svc now db updateOk (some (strBytes "Bearer " ++ S)) =
      .error (.AuthorizationError "Project is not active")
    ∧ statusOf (.AuthorizationError "Project is not active") = 403
    ∧ ∀ m, authenticate svc now db updateOk (some (strBytes "Bearer " ++ S)) ≠
        .error (.AuthenticationError m) := by
  have hSne : S ≠ [] := by
    intro h
    subst h
    simp [strBytes] at hpk
  have hstrip : stripBearer (strBytes "Bearer " ++ S) = some S := by
    have hpre : (strBytes "Bearer ").isPrefixOf (strBytes "Bearer " ++ S) = true := by
      rw [List.isPrefixOf_iff_prefix]
      exact List.prefix_append _ _
    simp only [stripBearer, hpre, if_pos]
    rw [List.drop_left' (by decide : (strBytes "Bearer ").length = 7)]
  have hres := findByApiKey_single_match svc now db updateOk S k hdb hact hpfx hexp hdec
  have hnotactive : p.isActive = false := by
    simp [Project.isActive, hpnact]
  have h1 : authenticate svc now db updateOk (some (strBytes "Bearer " ++ S)) =
      .error (.AuthorizationError "Project is not active") := by
    simp only [authenticate, hstrip, htrim, if_neg hSne, hpk, Bool.not_true,
      Bool.false_eq_true, if_false, hres]
    simp only [hproj]
    simp [hnotactive]
  refine ⟨h1, rfl, ?_⟩
  intro m heq
  rw [h1] at heq
  simp at heq

/-- Witness for C4: the suspended owner of a matching credential yields
the 403 authorization rejection. -/
theorem c4_inactive_project_rejection_witness :
    authenticate svcW 0 dbSuspendedW true (some (strBytes "Bearer " ++ secretW)) =
      .error (.AuthorizationError "Project is not active")
    ∧ statusOf (.AuthorizationError "Project is not active") = 403 := by
  have h := c4_inactive_project_rejection svcW 0 dbSuspendedW true secretW keyDocW
    projSuspendedW rfl (by decide) (by decide)
    (by intro t ht; simp [keyDocW] at ht) (by decide) (by decide) (by decide)
    (by decide) (by decide)
  exact ⟨h.1, h.2.1⟩

/-- C8 (amended): on the first matching credential the `last_used_at`
update is awaited inline — it appears among the awaited repository
operations and nothing is spawned — and is best-effort: for either
outcome of the update the authentication still resolves and returns the
owning project, with the same result. -/
theorem c8_last_used_update_inline_best_effort (svc : EncryptionService)
    (now : Int) (db : GatewayDb) (S : List Nat) (k : ProjectApiKey) (p : Project)
    (hdb : db.projectApiKeys = [k]) (hact : k.isActive = true)
    (hpfx : k.keyPfx = keyPfxOf S)
    (hexp : ∀ t, k.expiresAt = some t → ¬ t < now)
    (hdec : svc.decrypt k.keyHash = .ok S)
    (hproj : findById db k.projectId = .ok p) :
    ∀ updateOk : Bool,
      (findByApiKey svc now db updateOk S).result = .ok p
      ∧ (findByApiKey svc now db updateOk S).result =
        (findByApiKey svc now db true S).result
      ∧ RepoOp.updateLastUsedAt k.id now ∈
        (findByApiKey svc now db updateOk S).awaitedOps
      ∧ (findByApiKey svc now db updateOk S).spawnedOps = [] := by
  intro updateOk
  rw [findByApiKey_single_match svc now db updateOk S k hdb hact hpfx hexp hdec,
    findByApiKey_single_match svc now db true S k hdb hact hpfx hexp hdec]
  simp [hproj]

/-- Witness for C8: on concrete data a failing update still authenticates
to the owning project while the update operation sits in the awaited
trace. -/
theorem c8_last_used_update_inline_best_effort_witness :
    (findByApiKey svcW 0 dbW false secretW).result = .ok projW
    ∧ (findByApiKey svcW 0 dbW false secretW).result =
      (findByApiKey svcW 0 dbW true secretW).result
    ∧ RepoOp.updateLastUsedAt keyDocW.id 0 ∈
      (findByApiKey svcW 0 dbW false secretW).awaitedOps
    ∧ (findByApiKey svcW 0 dbW false secretW).spawnedOps = [] :=
  c8_last_used_update_inline_best_effort svcW 0 dbW secretW keyDocW projW
    rfl (by decide) (by decide) (by intro t ht; simp [keyDocW] at ht)
    (by decide) (by decide) false

/-- Counterexample for C8 as stated: on concrete data the `last_used_at`
update is one of the repository operations the caller awaits (it is not
in the spawned set, which is empty) — `find_by_api_key` awaits
`update_one` inline rather than detaching it, so the caller does wait on
the update. -/
theorem c8_blocking_update_counterexample :
    RepoOp.updateLastUsedAt keyDocW.id 0 ∈
      (findByApiKey svcW 0 dbW false secretW).awaitedOps
    ∧ RepoOp.updateLastUsedAt keyDocW.id 0 ∉
      (findByApiKey svcW 0 dbW false secretW).spawnedOps
    ∧ (findByApiKey svcW 0 dbW false secretW).spawnedOps = []
    ∧ (findByApiKey svcW 0 dbW false secretW).result = .ok projW := by
  decide

/-- C6 (amended): a chat request with empty `messages`, empty `model`, or
any numeric field out of range — temperature outside [0,2], top_p outside
[0,1], either penalty outside [-2,2] — is rejected by the handler with
HTTP 400, error type `invalid_request_error` and error code
`invalid_request`, and no provider call is issued; a request with all
fields in range passes validation. -/
theorem c6_chat_validation_before_upstream :
    ∀ (envKey : Option String) (req : ChatCompletionRequest),
      ((req.messages = [] ∨ req.model = "" ∨ req.temperature < 0
        ∨ 2 < req.temperature ∨ req.topP < 0 ∨ 1 < req.topP
        ∨ req.frequencyPenalty < -2 ∨ 2 < req.frequencyPenalty
        ∨ req.presencePenalty < -2 ∨ 2 < req.presencePenalty) →
        ∃ msg, createChatCompletion envKey req =
          .reject 400 ⟨"invalid_request_error", msg, "invalid_request"⟩)
      ∧ (req.messages ≠ [] ∧ req.model ≠ "" ∧ 0 ≤ req.temperature
        ∧ req.temperature ≤ 2 ∧ 0 ≤ req.topP ∧ req.topP ≤ 1
        ∧ -2 ≤ req.frequencyPenalty ∧ req.frequencyPenalty ≤ 2
        ∧ -2 ≤ req.presencePenalty ∧ req.presencePenalty ≤ 2 →
        req.validate = .ok ())
      ∧ ∀ s e, createChatCompletion envKey req = .reject s e →
          ∀ pk r, createChatCompletion envKey req ≠ .callProvider pk r := by
  intro envKey req
  refine ⟨?_, ?_, ?_⟩
  · intro hbad
    by_cases c1 : req.messages = []
    · exact ⟨"messages array cannot be empty",
        by simp [createChatCompletion, ChatCompletionRequest.validate, c1]⟩
    by_cases c2 : req.model = ""
    · exact ⟨"model cannot be empty",
        by simp [createChatCompletion, ChatCompletionRequest.validate, c1, c2]⟩
    by_cases c3 : 0 ≤ req.temperature ∧ req.temperature ≤ 2
    case neg =>
      exact ⟨"temperature must be between 0 and 2",
        by simp [createChatCompletion, ChatCompletionRequest.validate, c1, c2, c3]⟩
    by_cases c4 : 0 ≤ req.topP ∧ req.topP ≤ 1
    case neg =>
      exact ⟨"top_p must be between 0 and 1",
        by simp [createChatCompletion, ChatCompletionRequest.validate, c1, c2, c3, c4]⟩
    by_cases c5 : -2 ≤ req.frequencyPenalty ∧ req.frequencyPenalty ≤ 2
    case neg =>
      exact ⟨"frequency_penalty must be between -2 and 2",
        by simp [createChatCompletion, ChatCompletionRequest.validate, c1, c2, c3, c4, c5]⟩
    by_cases c6 : -2 ≤ req.presencePenalty ∧ req.presencePenalty ≤ 2
    case neg =>
      exact ⟨"presence_penalty must be between -2 and 2",
        by simp [createChatCompletion, ChatCompletionRequest.validate, c1, c2, c3, c4, c5, c6]⟩
    exfalso
    rcases hbad with h | h | h | h | h | h | h | h | h | h
    · exact c1 h
    · exact c2 h
    all_goals linarith [c3.1, c3.2, c4.1, c4.2, c5.1, c5.2, c6.1, c6.2]
  · rintro ⟨h1, h2, h3a, h3b, h4a, h4b, h5a, h5b, h6a, h6b⟩
    unfold ChatCompletionRequest.validate
    rw [if_neg h1, if_neg h2, if_neg (not_not_intro ⟨h3a, h3b⟩),
      if_neg (not_not_intro ⟨h4a, h4b⟩), if_neg (not_not_intro ⟨h5a, h5b⟩),
      if_neg (not_not_intro ⟨h6a, h6b⟩)]
  · intro s e heq pk r hcall
    rw [heq] at hcall
    cases hcall

/-- Counterexample for C6 as stated: at `temperature = 3.0` the handler
rejects with 400 whose `type` field is `invalid_request_error` but whose
`code` field is `invalid_request`, not `invalid_request_error`. -/
theorem c6_error_code_counterexample :
    createChatCompletion (some "sk-test") reqTemp3W =
      .reject 400
        ⟨"invalid_request_error", "temperature must be between 0 and 2",
         "invalid_request"⟩
    ∧ ("invalid_request" : String) ≠ "invalid_request_error" := by
  constructor
  · decide
  · decide

/-- C7: the chat cost is `promptTokens/1000 * inputRate +
completionTokens/1000 * outputRate`, the rate pair selected by model-name
prefix matching against the static table (gpt-4-turbo/gpt-4-1106, gpt-4,
gpt-3.5-turbo), every unrecognized model name falling back to the
cheapest tier's rates. -/
theorem c7_cost_determinism :
    ∀ (model : List Nat) (promptTokens completionTokens : Nat),
      calculateOpenaiCost model promptTokens completionTokens =
        (promptTokens : ℚ) / 1000 * (specRatesFor model).1 +
        (completionTokens : ℚ) / 1000 * (specRatesFor model).2
      ∧ (modelStarts "gpt-4-turbo" model = false →
          modelStarts "gpt-4-1106" model = false →
          modelStarts "gpt-4" model = false →
          modelStarts "gpt-3.5-turbo" model = false →
          specRatesFor model = specFallbackRates)
      ∧ (∀ row ∈ specPriceRows,
          specFallbackRates.1 ≤ row.2.1 ∧ specFallbackRates.2 ≤ row.2.2) := by
  intro model promptTokens completionTokens
  refine ⟨?_, ?_, ?_⟩
  · by_cases h1 : modelStarts "gpt-4-turbo" model <;>
      by_cases h2 : modelStarts "gpt-4-1106" model <;>
      by_cases h3 : modelStarts "gpt-4" model <;>
      by_cases h4 : modelStarts "gpt-3.5-turbo" model <;>
      simp [calculateOpenaiCost, specRatesFor, specPriceRows, specFallbackRates,
        List.find?, h1, h2, h3, h4]
  · intro h1 h2 h3 h4
    simp [specRatesFor, specPriceRows, List.find?, h1, h2, h3, h4]
  · intro row hrow
    fin_cases hrow <;> constructor <;> norm_num [specFallbackRates]

/-- C9: a usage record is constructed and handed to the detached
background write only after a successful provider call — none on provider
failure, exactly one per success, with `from_cache = false` — and the
caller's transcription result is the same whether that detached write
succeeds or fails. -/
theorem c9_usage_log_isolation (deps : TranscribeDeps) (projectId : String)
    (request : TranscriptionRequest) (key : String)
    (hkey : resolveApiKey deps request = .ok key) :
    (∀ e, deps.callProvider key = .error e →
      (transcribe deps projectId request).result = .error e
      ∧ (transcribe deps projectId request).spawnedWrites = [])
    ∧ (∀ resp, deps.callProvider key = .ok resp →
        (transcribe deps projectId request).result = .ok resp
        ∧ (∃ hist, (transcribe deps projectId request).spawnedWrites = [hist]
            ∧ hist.fromCache = false)
        ∧ ∀ wk : Bool,
            (transcribe { deps with writeOk := wk } projectId request).result =
              .ok resp
            ∧ (transcribe { deps with writeOk := wk } projectId request).spawnedWrites =
              (transcribe deps projectId request).spawnedWrites) := by
  have hkey' : ∀ wk : Bool,
      resolveApiKey { deps with writeOk := wk } request = .ok key := fun _ => hkey
  constructor
  · intro e he
    simp [transcribe, hkey, he]
  · intro resp hresp
    refine ⟨by simp [transcribe, hkey, hresp], ?_, ?_⟩
    · refine ⟨TranscriptionHistory.new projectId LlmProvider.OpenAI
        (deps.sha256Hex request.fileData) request.fileName
        request.fileData.length resp.duration (request.model.getD "whisper-1")
        resp.language resp.text
        ((resp.usage.bind fun u => u.estimatedCostUsd).getD 0)
        deps.responseTimeMs false deps.freshId deps.now, ?_, rfl⟩
      simp [transcribe, hkey, hresp, logUsage]
    · intro wk
      constructor
      · simp [transcribe, hkey' wk, hresp]
      · simp [transcribe, hkey, hkey' wk, hresp, logUsage]

/-- Witness for C9: on concrete effects a successful transcription yields
exactly one spawned usage record with `from_cache = false`, and the
result is the same when the detached write fails. -/
theorem c9_usage_log_isolation_witness :
    (transcribe depsW "proj_1" reqAudioW).result = .ok respW
    ∧ (transcribe depsW "proj_1" reqAudioW).spawnedWrites.map
        (fun h => h.fromCache) = [false]
    ∧ (transcribe { depsW with writeOk := false } "proj_1" reqAudioW).result =
      .ok respW := by
  have h := (c9_usage_log_isolation depsW "proj_1" reqAudioW "sk-default" rfl).2
    respW rfl
  obtain ⟨hres, ⟨hist, hsp, hfc⟩, hwk⟩ := h
  exact ⟨hres, by rw [hsp]; simp [hfc], (hwk false).1⟩
